import Mathlib

/-!
Shallow embedding of `src/utils/gumloopUtil.js`, the remote job orchestration
client: the job launcher (`startGumloopFlow`), run status fetcher
(`getFlowRunDetails`), completion poller (`pollFlowRunUntilComplete`) and
orchestration facade (`startAndWaitForFlow`).

Modelling choices, all taken from the source:
* An outbound HTTP call either fails at the transport level or yields a
  response with an `ok` flag, a numeric status, and a body that either parses
  to the expected JSON shape or not (`response.json()` rejecting on a
  malformed body is modelled by `body = none`).
* The poller's environment supplies, for each fetch index, the transport
  outcome of that fetch (keyed also by the `runId` the poller passes, so that
  the identifier used on every call is observable) and the wall-clock
  duration the fetch consumes.  `Date.now() - startTime` is modelled by an
  explicit `elapsed` counter: it is `0` when the first fetch begins, grows by
  the fetch's duration across a fetch, and by `pollingIntervalMs` across the
  `setTimeout` sleep.
* The JS `while (true)` loop is embedded with explicit fuel; `none` means the
  fuel ran out before the loop terminated, and fuel sufficiency is proved
  separately.
* The poller also returns the trace of `runId` arguments of the fetch calls
  it performed, so fetch counts and the identifier used per call are part of
  the result.
-/

/-- Parsed JSON body of the get-run endpoint: the `state` field the poller
inspects plus the rest of the payload, opaque to this client. -/
structure RunDetails where
  state : String
  payload : String
deriving Repr, DecidableEq

/-- Parsed JSON body of the start-pipeline endpoint: the `run_id` field the
facade reads plus the rest of the payload, opaque to this client. -/
structure StartPayload where
  run_id : String
  payload : String
deriving Repr, DecidableEq

/-- An HTTP response as the code observes it: the `ok` flag, the numeric
status, and a body that parsed to `α` (`some`) or was malformed (`none`,
making `response.json()` reject). -/
structure HttpResponse (α : Type) where
  ok : Bool
  status : Nat
  body : Option α
deriving Repr, DecidableEq

/-- Outcome of one outbound call: transport-level failure (network error,
`fetch` itself rejects) or an HTTP response. -/
inductive Transport (α : Type) where
  | netError : Transport α
  | response : HttpResponse α → Transport α
deriving Repr, DecidableEq

/-- The distinct ways `getFlowRunDetails` / `startGumloopFlow` throw: the
transport rejected, the guard `if (!response.ok) throw` fired carrying the
HTTP status, or `response.json()` rejected on a malformed body. -/
inductive FetchError where
  | transport : FetchError
  | httpStatus : Nat → FetchError
  | badBody : FetchError
deriving Repr, DecidableEq

/-- `getFlowRunDetails` (gumloopUtil.js lines 4-31): performs one GET for the
run, throws on transport failure, throws `HTTP error!` when `!response.ok`,
otherwise returns `response.json()`, which rejects when the body is
malformed.  The auth token, user id and project id only parameterize the
outbound call and are absorbed into the transport value. -/
def getFlowRunDetails (t : Transport RunDetails) : Except FetchError RunDetails :=
  match t with
  | .netError => .error .transport
  | .response r =>
    if !r.ok then
      .error (.httpStatus r.status)
    else
      match r.body with
      | none => .error .badBody
      | some d => .ok d

/-- `startGumloopFlow` (gumloopUtil.js lines 73-102): performs one POST to
start the pipeline, throws on transport failure, throws `HTTP error!` when
`!response.ok`, otherwise returns `response.json()`, which rejects when the
body is malformed. -/
def startGumloopFlow (t : Transport StartPayload) : Except FetchError StartPayload :=
  match t with
  | .netError => .error .transport
  | .response r =>
    if !r.ok then
      .error (.httpStatus r.status)
    else
      match r.body with
      | none => .error .badBody
      | some d => .ok d

/-- The failures `pollFlowRunUntilComplete` can surface: a propagated fetch
failure (StatusFetchError), `Flow failed with state: ...` (RunFailedError
carrying the observed state), or `Polling timeout exceeded`
(PollTimeoutError). -/
inductive PollError where
  | statusFetch : FetchError → PollError
  | runFailed : String → PollError
  | pollTimeout : PollError
deriving Repr, DecidableEq

/-- Polling configuration with the source's defaults (gumloopUtil.js lines
39-40). -/
structure PollConfig where
  pollingIntervalMs : Nat := 2000
  timeoutMs : Nat := 300000
deriving Repr, DecidableEq

/-- The polling loop of `pollFlowRunUntilComplete` (gumloopUtil.js lines
44-69), fuel-bounded.  `fetchT rid k` is the transport outcome of the `k`-th
fetch when called with run id `rid`; `dur k` is the wall-clock time that
fetch consumes; `elapsed` is `Date.now() - startTime` at the moment the
`k`-th fetch begins.  Per iteration, in source order: fetch; return the
details if `state === "DONE"`; throw RunFailedError if the state is in
`["FAILED", "TERMINATED"]`; throw PollTimeoutError if
`Date.now() - startTime > timeoutMs`; else sleep `pollingIntervalMs` and loop.
Returns the result together with the trace of `runId` arguments of the
fetches performed. -/
def pollAux (fetchT : String → Nat → Transport RunDetails) (dur : Nat → Nat)
    (runId : String) (cfg : PollConfig) :
    Nat → Nat → Nat → Option (Except PollError RunDetails × List String)
  | 0, _, _ => none
  | fuel + 1, k, elapsed =>
    match getFlowRunDetails (fetchT runId k) with
    | .error e => some (.error (.statusFetch e), [runId])
    | .ok d =>
      if d.state = "DONE" then
        some (.ok d, [runId])
      else if d.state ∈ ["FAILED", "TERMINATED"] then
        some (.error (.runFailed d.state), [runId])
      else if cfg.timeoutMs < elapsed + dur k then
        some (.error .pollTimeout, [runId])
      else
        match pollAux fetchT dur runId cfg fuel (k + 1)
            (elapsed + dur k + cfg.pollingIntervalMs) with
        | none => none
        | some p => some (p.1, runId :: p.2)

/-- `pollFlowRunUntilComplete` entry point: `startTime = Date.now()` makes the
initial elapsed time `0`, and fetch indices start at `0`. -/
def pollFlowRunUntilComplete (fetchT : String → Nat → Transport RunDetails)
    (dur : Nat → Nat) (runId : String) (cfg : PollConfig) (fuel : Nat) :
    Option (Except PollError RunDetails × List String) :=
  pollAux fetchT dur runId cfg fuel 0 0

/-- Failures of the whole orchestration: the launch threw, or the polling
phase threw. -/
inductive OrchError where
  | launchError : FetchError → OrchError
  | pollError : PollError → OrchError
deriving Repr, DecidableEq

/-- The value `startAndWaitForFlow` resolves with (gumloopUtil.js lines
136-139). -/
structure OrchestrationResult where
  startDetails : StartPayload
  finalResult : RunDetails
deriving Repr, DecidableEq

/-- Environment of one orchestration call: the transport outcome of the single
launch POST, and the per-fetch transport outcomes and durations for the
polling phase. -/
structure OrchEnv where
  launchTransport : Transport StartPayload
  fetchTransport : String → Nat → Transport RunDetails
  fetchDuration : Nat → Nat

/-- `startAndWaitForFlow` (gumloopUtil.js lines 105-144): start the flow with
one `startGumloopFlow` call, then poll with `runId := flowStart.run_id`; the
`try/catch` only logs and rethrows, so every error propagates verbatim.
Besides the result it returns the number of `startGumloopFlow` calls
performed (the body contains exactly one) and the trace of `runId` arguments
of the status fetches performed. -/
def startAndWaitForFlow (env : OrchEnv) (cfg : PollConfig) (fuel : Nat) :
    Option (Except OrchError OrchestrationResult × Nat × List String) :=
  match startGumloopFlow env.launchTransport with
  | .error e => some (.error (.launchError e), 1, [])
  | .ok flowStart =>
    match pollFlowRunUntilComplete env.fetchTransport env.fetchDuration
        flowStart.run_id cfg fuel with
    | none => none
    | some p =>
      match p.1 with
      | .error e => some (.error (.pollError e), 1, p.2)
      | .ok finalResult => some (.ok ⟨flowStart, finalResult⟩, 1, p.2)

/-- `Date.now() - startTime` right after the `j`-th further fetch completes,
for a loop segment whose first fetch has absolute index `k` and begins at
elapsed time `e`: each fetch adds its duration, each sleep adds the polling
interval `i`. -/
def elapsedAfterN (dur : Nat → Nat) (i : Nat) : Nat → Nat → Nat → Nat
  | k, e, 0 => e + dur k
  | k, e, j + 1 => elapsedAfterN dur i (k + 1) (e + dur k + i) j

/-! ## Single-iteration behaviour of the polling loop

One lemma per branch of the loop body, in source order: fetch failure,
`DONE`, `FAILED`/`TERMINATED`, deadline exceeded, and the sleep-and-retry
continuation. -/

theorem pollAux_fetch_error {fT : String → Nat → Transport RunDetails} {dur : Nat → Nat}
    {rid : String} {cfg : PollConfig} {fuel k e : Nat} {err : FetchError}
    (h : getFlowRunDetails (fT rid k) = .error err) :
    pollAux fT dur rid cfg (fuel + 1) k e = some (.error (.statusFetch err), [rid]) := by
  simp [pollAux, h]

theorem pollAux_done {fT : String → Nat → Transport RunDetails} {dur : Nat → Nat}
    {rid : String} {cfg : PollConfig} {fuel k e : Nat} {d : RunDetails}
    (h : getFlowRunDetails (fT rid k) = .ok d) (hd : d.state = "DONE") :
    pollAux fT dur rid cfg (fuel + 1) k e = some (.ok d, [rid]) := by
  simp [pollAux, h, hd]

theorem pollAux_failed {fT : String → Nat → Transport RunDetails} {dur : Nat → Nat}
    {rid : String} {cfg : PollConfig} {fuel k e : Nat} {d : RunDetails}
    (h : getFlowRunDetails (fT rid k) = .ok d)
    (hd : d.state = "FAILED" ∨ d.state = "TERMINATED") :
    pollAux fT dur rid cfg (fuel + 1) k e = some (.error (.runFailed d.state), [rid]) := by
  have hne : d.state ≠ "DONE" := by rcases hd with h1 | h1 <;> simp [h1]
  simp [pollAux, h, hne, hd]

theorem pollAux_timeout_step {fT : String → Nat → Transport RunDetails} {dur : Nat → Nat}
    {rid : String} {cfg : PollConfig} {fuel k e : Nat} {d : RunDetails}
    (h : getFlowRunDetails (fT rid k) = .ok d) (h1 : d.state ≠ "DONE")
    (h2 : d.state ≠ "FAILED") (h3 : d.state ≠ "TERMINATED")
    (ht : cfg.timeoutMs < e + dur k) :
    pollAux fT dur rid cfg (fuel + 1) k e = some (.error .pollTimeout, [rid]) := by
  simp [pollAux, h, h1, h2, h3, ht]

theorem pollAux_continue {fT : String → Nat → Transport RunDetails} {dur : Nat → Nat}
    {rid : String} {cfg : PollConfig} {fuel k e : Nat} {d : RunDetails}
    (h : getFlowRunDetails (fT rid k) = .ok d) (h1 : d.state ≠ "DONE")
    (h2 : d.state ≠ "FAILED") (h3 : d.state ≠ "TERMINATED")
    (ht : e + dur k ≤ cfg.timeoutMs) :
    pollAux fT dur rid cfg (fuel + 1) k e =
      (pollAux fT dur rid cfg fuel (k + 1) (e + dur k + cfg.pollingIntervalMs)).map
        (fun p => (p.1, rid :: p.2)) := by
  have ht' : ¬ cfg.timeoutMs < e + dur k := by omega
  simp [pollAux, h, h1, h2, h3, ht']
  cases pollAux fT dur rid cfg fuel (k + 1) (e + dur k + cfg.pollingIntervalMs) with
  | none => simp
  | some p => cases p; simp

/-! ## Whole-run invariants of the polling loop

`pollAux_sound` collects, in one induction over the fuel, everything the
claims need about a terminated run: the fetch trace is a nonempty constant
list of the `runId` argument and no longer than the fuel; the deadline
comparison performed between consecutive fetches passed (elapsed time at
most `timeoutMs`) before every fetch after the first; a returned status has
state `DONE`; and a `pollTimeout` outcome means the elapsed time right
after the final fetch exceeded `timeoutMs`.  `pollAux_none_mul_bound` is
the fuel-sufficiency bound: a run that exhausts `fuel + 1` iterations kept
the deadline comparison passing throughout, so `fuel` whole sleep intervals
fit inside `timeoutMs`. -/

theorem pollAux_sound (fT : String → Nat → Transport RunDetails) (dur : Nat → Nat)
    (rid : String) (cfg : PollConfig) :
    ∀ fuel k e r tr, pollAux fT dur rid cfg fuel k e = some (r, tr) →
      tr ≠ [] ∧ tr = List.replicate tr.length rid ∧ tr.length ≤ fuel ∧
      (∀ j, j + 1 < tr.length →
        elapsedAfterN dur cfg.pollingIntervalMs k e j ≤ cfg.timeoutMs) ∧
      (∀ d, r = .ok d → d.state = "DONE") ∧
      (r = .error .pollTimeout →
        cfg.timeoutMs < elapsedAfterN dur cfg.pollingIntervalMs k e (tr.length - 1)) := by
  intro fuel
  induction fuel with
  | zero => intro k e r tr h; simp [pollAux] at h
  | succ n ih =>
    intro k e r tr h
    simp only [pollAux] at h
    split at h
    case _ err heq =>
      obtain ⟨rfl, rfl⟩ := by simpa using h
      refine ⟨by simp, by simp, by simp, ?_, by simp, by simp⟩
      intro j hj
      simp only [List.length_singleton] at hj
      omega
    case _ d heq =>
      split at h
      case _ hdone =>
        obtain ⟨rfl, rfl⟩ := by simpa using h
        refine ⟨by simp, by simp, by simp, ?_,
          fun d' hd' => by cases hd'; exact hdone, by simp⟩
        intro j hj
        simp only [List.length_singleton] at hj
        omega
      case _ hdone =>
        split at h
        case _ hfail =>
          obtain ⟨rfl, rfl⟩ := by simpa using h
          refine ⟨by simp, by simp, by simp, ?_, by simp, by simp⟩
          intro j hj
          simp only [List.length_singleton] at hj
          omega
        case _ hfail =>
          split at h
          case _ htm =>
            obtain ⟨rfl, rfl⟩ := by simpa using h
            refine ⟨by simp, by simp, by simp, ?_, by simp, fun _ => ?_⟩
            · intro j hj
              simp only [List.length_singleton] at hj
              omega
            · simpa [elapsedAfterN] using htm
          case _ htm =>
            split at h
            case _ hrec => simp at h
            case _ p hrec =>
              obtain ⟨r', tr'⟩ := p
              obtain ⟨rfl, rfl⟩ := by simpa using h
              obtain ⟨hne, hrepl, hlen, hchecks, hok, htmo⟩ :=
                ih (k + 1) (e + dur k + cfg.pollingIntervalMs) r' tr' hrec
              have hlen' : tr'.length ≠ 0 := by
                intro h0
                exact hne (List.length_eq_zero.mp h0)
              refine ⟨by simp, ?_, by simp; omega, ?_, hok, ?_⟩
              · simp only [List.length_cons, List.replicate_succ]
                rw [← hrepl]
              · intro j hj
                rcases j with _ | j'
                · simpa [elapsedAfterN] using (by omega : e + dur k ≤ cfg.timeoutMs)
                · simp only [elapsedAfterN]
                  simp only [List.length_cons] at hj
                  exact hchecks j' (by omega)
              · intro hc
                have ht := htmo hc
                obtain ⟨m, hm⟩ : ∃ m, tr'.length = m + 1 := ⟨tr'.length - 1, by omega⟩
                rw [hm] at ht
                simp only [List.length_cons, hm, Nat.add_sub_cancel] at ht ⊢
                simpa [elapsedAfterN] using ht

theorem pollAux_none_mul_bound (fT : String → Nat → Transport RunDetails) (dur : Nat → Nat)
    (rid : String) (cfg : PollConfig) :
    ∀ fuel k e, pollAux fT dur rid cfg (fuel + 1) k e = none →
      e + fuel * cfg.pollingIntervalMs ≤ cfg.timeoutMs := by
  intro fuel
  induction fuel with
  | zero =>
    intro k e h
    simp only [pollAux] at h
    split at h
    · simp at h
    · split at h
      · simp at h
      · split at h
        · simp at h
        · split at h
          case _ htm => simp at h
          case _ htm => omega
  | succ n ih =>
    intro k e h
    simp only [pollAux] at h
    split at h
    · simp at h
    · split at h
      · simp at h
      · split at h
        · simp at h
        · split at h
          case _ htm => simp at h
          case _ htm =>
            split at h
            case _ hrec =>
              have hstep := ih (k + 1) (e + dur k + cfg.pollingIntervalMs) hrec
              have hmul : (n + 1) * cfg.pollingIntervalMs
                  = n * cfg.pollingIntervalMs + cfg.pollingIntervalMs :=
                Nat.succ_mul n cfg.pollingIntervalMs
              rw [hmul]
              set m := n * cfg.pollingIntervalMs
              omega
            · simp at h

/-! ## The claims -/

/-- C1: the Completion Poller never returns a run status whose state is not
`DONE`: whenever a poll invocation terminates, either it returns a status
with state `DONE`, or it fails with one of the three failures — a propagated
StatusFetchError, RunFailedError, or PollTimeoutError. -/
theorem pollFlowRun_only_done_or_failure
    (fT : String → Nat → Transport RunDetails) (dur : Nat → Nat)
    (rid : String) (cfg : PollConfig) (fuel : Nat)
    (r : Except PollError RunDetails) (tr : List String)
    (h : pollFlowRunUntilComplete fT dur rid cfg fuel = some (r, tr)) :
    (∀ d, r = .ok d → d.state = "DONE") ∧
    (∀ err, r = .error err →
      (∃ e, err = .statusFetch e) ∨ (∃ s, err = .runFailed s) ∨ err = .pollTimeout) := by
  obtain ⟨-, -, -, -, hok, -⟩ := pollAux_sound fT dur rid cfg fuel 0 0 r tr h
  refine ⟨hok, ?_⟩
  intro err _
  cases err with
  | statusFetch e => exact .inl ⟨e, rfl⟩
  | runFailed s => exact .inr (.inl ⟨s, rfl⟩)
  | pollTimeout => exact .inr (.inr rfl)

/-- Witness for C1 at a concrete run: a single fetch returning state `DONE`. -/
theorem pollFlowRun_only_done_or_failure_witness :
    (∀ d, (Except.ok ⟨"DONE", ""⟩ : Except PollError RunDetails) = .ok d →
      d.state = "DONE") ∧
    (∀ err, (Except.ok ⟨"DONE", ""⟩ : Except PollError RunDetails) = .error err →
      (∃ e, err = .statusFetch e) ∨ (∃ s, err = .runFailed s) ∨ err = .pollTimeout) :=
  pollFlowRun_only_done_or_failure
    (fun _ _ => .response ⟨true, 200, some ⟨"DONE", ""⟩⟩) (fun _ => 0)
    "r" ⟨10, 100⟩ 1 (.ok ⟨"DONE", ""⟩) ["r"] rfl

/-- C2: per-fetch state classification, in source order: `DONE` returns that
status immediately; `FAILED` or `TERMINATED` fails with RunFailedError
carrying that state; any other state is non-terminal and, when the deadline
comparison passes, the loop goes on to the next fetch after one sleep
interval. -/
theorem pollFlowRun_state_classification
    (fT : String → Nat → Transport RunDetails) (dur : Nat → Nat)
    (rid : String) (cfg : PollConfig) (fuel k e : Nat) (d : RunDetails)
    (h : getFlowRunDetails (fT rid k) = .ok d) :
    (d.state = "DONE" →
      pollAux fT dur rid cfg (fuel + 1) k e = some (.ok d, [rid])) ∧
    (d.state = "FAILED" ∨ d.state = "TERMINATED" →
      pollAux fT dur rid cfg (fuel + 1) k e =
        some (.error (.runFailed d.state), [rid])) ∧
    (d.state ≠ "DONE" → d.state ≠ "FAILED" → d.state ≠ "TERMINATED" →
      e + dur k ≤ cfg.timeoutMs →
      pollAux fT dur rid cfg (fuel + 1) k e =
        (pollAux fT dur rid cfg fuel (k + 1) (e + dur k + cfg.pollingIntervalMs)).map
          (fun p => (p.1, rid :: p.2))) :=
  ⟨fun hd => pollAux_done h hd,
   fun hd => pollAux_failed h hd,
   fun h1 h2 h3 ht => pollAux_continue h h1 h2 h3 ht⟩

/-- Witness for C2 at a concrete fetch result with state `FAILED`. -/
theorem pollFlowRun_state_classification_witness :
    pollAux (fun _ _ => .response ⟨true, 200, some ⟨"FAILED", ""⟩⟩) (fun _ => 0)
        "r" ⟨10, 100⟩ 1 0 0
      = some (.error (.runFailed "FAILED"), ["r"]) :=
  (pollFlowRun_state_classification
    (fun _ _ => .response ⟨true, 200, some ⟨"FAILED", ""⟩⟩) (fun _ => 0)
    "r" ⟨10, 100⟩ 0 0 0 ⟨"FAILED", ""⟩ rfl).2.1 (.inl rfl)

/-- C3: between consecutive fetches the poller compares the elapsed
wall-clock time against `timeoutMs`.  In any terminated run, the comparison
preceding every fetch after the first passed (elapsed at most `timeoutMs`),
a `pollTimeout` outcome certifies the final comparison exceeded `timeoutMs`,
and whenever a non-terminal status is fetched with the deadline already
exceeded the poller fails with PollTimeoutError at once, performing no
further fetch. -/
theorem pollFlowRun_deadline_checked_between_fetches
    (fT : String → Nat → Transport RunDetails) (dur : Nat → Nat)
    (rid : String) (cfg : PollConfig) (fuel : Nat)
    (r : Except PollError RunDetails) (tr : List String)
    (h : pollFlowRunUntilComplete fT dur rid cfg fuel = some (r, tr)) :
    (∀ j, j + 1 < tr.length →
      elapsedAfterN dur cfg.pollingIntervalMs 0 0 j ≤ cfg.timeoutMs) ∧
    (r = .error .pollTimeout →
      cfg.timeoutMs < elapsedAfterN dur cfg.pollingIntervalMs 0 0 (tr.length - 1)) ∧
    (∀ k e d f, getFlowRunDetails (fT rid k) = .ok d → d.state ≠ "DONE" →
      d.state ≠ "FAILED" → d.state ≠ "TERMINATED" → cfg.timeoutMs < e + dur k →
      pollAux fT dur rid cfg (f + 1) k e = some (.error .pollTimeout, [rid])) := by
  obtain ⟨-, -, -, hchecks, -, htmo⟩ := pollAux_sound fT dur rid cfg fuel 0 0 r tr h
  exact ⟨hchecks, htmo,
    fun k e d f hg h1 h2 h3 ht => pollAux_timeout_step hg h1 h2 h3 ht⟩

/-- Witness for C3 at a concrete run: statuses stay `RUNNING` with
`intervalMs = 10`, `timeoutMs = 50`; the comparison before the second fetch
passed. -/
theorem pollFlowRun_deadline_checked_between_fetches_witness :
    elapsedAfterN (fun _ => 0) 10 0 0 0 ≤ 50 := by
  have h := pollFlowRun_deadline_checked_between_fetches
    (fun _ _ => .response ⟨true, 200, some ⟨"RUNNING", ""⟩⟩) (fun _ => 0)
    "r" ⟨10, 50⟩ 10 (.error .pollTimeout) ["r", "r", "r", "r", "r", "r", "r"] rfl
  exact h.1 0 (by simp)

/-- C10: terminal-state classification takes precedence over the deadline.
Any terminated poll run performed at least one fetch (the first fetch
happens before any deadline comparison), and a fetch returning `DONE` —
or `FAILED`/`TERMINATED` — is classified as such at any elapsed time,
including past the deadline, never as a timeout. -/
theorem pollFlowRun_terminal_classification_precedes_deadline
    (fT : String → Nat → Transport RunDetails) (dur : Nat → Nat)
    (rid : String) (cfg : PollConfig) :
    (∀ fuel r tr, pollFlowRunUntilComplete fT dur rid cfg fuel = some (r, tr) →
      tr ≠ []) ∧
    (∀ fuel k e d, getFlowRunDetails (fT rid k) = .ok d → d.state = "DONE" →
      pollAux fT dur rid cfg (fuel + 1) k e = some (.ok d, [rid])) ∧
    (∀ fuel k e d, getFlowRunDetails (fT rid k) = .ok d →
      d.state = "FAILED" ∨ d.state = "TERMINATED" →
      pollAux fT dur rid cfg (fuel + 1) k e =
        some (.error (.runFailed d.state), [rid])) :=
  ⟨fun fuel r tr h => (pollAux_sound fT dur rid cfg fuel 0 0 r tr h).1,
   fun _ _ _ _ hg hd => pollAux_done hg hd,
   fun _ _ _ _ hg hd => pollAux_failed hg hd⟩

/-- Witness for C10: with `timeoutMs = 0`, a first fetch returning `DONE`
yields success, not a timeout. -/
theorem pollFlowRun_terminal_classification_precedes_deadline_witness :
    pollAux (fun _ _ => .response ⟨true, 200, some ⟨"DONE", ""⟩⟩) (fun _ => 0)
        "r" ⟨10, 0⟩ 1 0 0
      = some (.ok ⟨"DONE", ""⟩, ["r"]) :=
  (pollFlowRun_terminal_classification_precedes_deadline
    (fun _ _ => .response ⟨true, 200, some ⟨"DONE", ""⟩⟩) (fun _ => 0)
    "r" ⟨10, 0⟩).2.1 0 0 0 ⟨"DONE", ""⟩ rfl rfl

/-- C4 counterexample: with `intervalMs = 10`, `timeoutMs = 50`, instantaneous
fetches and statuses that stay `RUNNING`, the poller terminates only at
elapsed time `60`: the total wall-clock wait is not bounded by `timeoutMs`. -/
theorem pollFlowRun_wait_exceeds_timeout_cx :
    pollFlowRunUntilComplete (fun _ _ => .response ⟨true, 200, some ⟨"RUNNING", ""⟩⟩)
        (fun _ => 0) "r" ⟨10, 50⟩ 10
      = some (.error .pollTimeout, ["r", "r", "r", "r", "r", "r", "r"]) ∧
    elapsedAfterN (fun _ => 0) 10 0 0 6 = 60 ∧ 50 < 60 :=
  ⟨rfl, rfl, by omega⟩

/-- C4 (amended): for every status sequence the polling loop terminates —
fuel `timeoutMs + 2` always suffices when `intervalMs ≥ 1`, so there is no
silent infinite loop — and every inter-fetch sleep begins at elapsed time at
most `timeoutMs`, so each fetch starts within `timeoutMs + intervalMs` of
the call; the total wall-clock wait may exceed `timeoutMs` by up to one
interval plus the final fetch's duration. -/
theorem pollFlowRun_terminates_and_bounded_wait
    (fT : String → Nat → Transport RunDetails) (dur : Nat → Nat)
    (rid : String) (cfg : PollConfig) (hi : 1 ≤ cfg.pollingIntervalMs) :
    (∃ r tr, pollFlowRunUntilComplete fT dur rid cfg (cfg.timeoutMs + 2) = some (r, tr)) ∧
    (∀ fuel r tr, pollFlowRunUntilComplete fT dur rid cfg fuel = some (r, tr) →
      ∀ j, j + 1 < tr.length →
        elapsedAfterN dur cfg.pollingIntervalMs 0 0 j ≤ cfg.timeoutMs) := by
  constructor
  · cases hp : pollFlowRunUntilComplete fT dur rid cfg (cfg.timeoutMs + 2) with
    | none =>
      exfalso
      have hb := pollAux_none_mul_bound fT dur rid cfg (cfg.timeoutMs + 1) 0 0 hp
      have hge := Nat.mul_le_mul_left (cfg.timeoutMs + 1) hi
      rw [Nat.mul_one] at hge
      set m := (cfg.timeoutMs + 1) * cfg.pollingIntervalMs
      omega
    | some p => exact ⟨p.1, p.2, rfl⟩
  · intro fuel r tr h j hj
    exact (pollAux_sound fT dur rid cfg fuel 0 0 r tr h).2.2.2.1 j hj

/-- Witness for the amended C4 at a concrete configuration. -/
theorem pollFlowRun_terminates_and_bounded_wait_witness :
    (∃ r tr, pollFlowRunUntilComplete (fun _ _ => .response ⟨true, 200, some ⟨"DONE", ""⟩⟩)
        (fun _ => 0) "r" ⟨1, 2⟩ (2 + 2) = some (r, tr)) ∧
    (∀ fuel r tr,
      pollFlowRunUntilComplete (fun _ _ => .response ⟨true, 200, some ⟨"DONE", ""⟩⟩)
          (fun _ => 0) "r" ⟨1, 2⟩ fuel = some (r, tr) →
      ∀ j, j + 1 < tr.length → elapsedAfterN (fun _ => 0) 1 0 0 j ≤ 2) :=
  pollFlowRun_terminates_and_bounded_wait
    (fun _ _ => .response ⟨true, 200, some ⟨"DONE", ""⟩⟩) (fun _ => 0) "r" ⟨1, 2⟩
    (by decide)

/-- C8 counterexample: with `intervalMs = timeoutMs = 1`, instantaneous
fetches and statuses that stay `RUNNING`, the poller performs three status
checks before timing out, not at most one. -/
theorem pollFlowRun_three_checks_interval_eq_timeout_cx :
    pollFlowRunUntilComplete (fun _ _ => .response ⟨true, 200, some ⟨"RUNNING", ""⟩⟩)
        (fun _ => 0) "r" ⟨1, 1⟩ 5
      = some (.error .pollTimeout, ["r", "r", "r"]) ∧
    (1 : Nat) ≤ 1 ∧ ¬ ((["r", "r", "r"] : List String).length ≤ 1) :=
  ⟨rfl, by omega, by decide⟩

/-- C8 (amended): if `intervalMs ≥ timeoutMs ≥ 1`, the poller performs at
most three status checks before terminating (in particular before timing
out), for every sequence of fetched statuses. -/
theorem pollFlowRun_at_most_three_checks
    (fT : String → Nat → Transport RunDetails) (dur : Nat → Nat)
    (rid : String) (cfg : PollConfig)
    (h1 : 1 ≤ cfg.timeoutMs) (h2 : cfg.timeoutMs ≤ cfg.pollingIntervalMs) :
    ∃ r tr, pollFlowRunUntilComplete fT dur rid cfg 3 = some (r, tr) ∧ tr.length ≤ 3 := by
  cases hp : pollFlowRunUntilComplete fT dur rid cfg 3 with
  | none =>
    exfalso
    have hb := pollAux_none_mul_bound fT dur rid cfg 2 0 0 hp
    omega
  | some p =>
    exact ⟨p.1, p.2, rfl,
      (pollAux_sound fT dur rid cfg 3 0 0 p.1 p.2 hp).2.2.1⟩

/-- Witness for the amended C8 at `intervalMs = timeoutMs = 1`. -/
theorem pollFlowRun_at_most_three_checks_witness :
    ∃ r tr, pollFlowRunUntilComplete
        (fun _ _ => .response ⟨true, 200, some ⟨"RUNNING", ""⟩⟩) (fun _ => 0)
        "r" ⟨1, 1⟩ 3 = some (r, tr) ∧ tr.length ≤ 3 :=
  pollFlowRun_at_most_three_checks
    (fun _ _ => .response ⟨true, 200, some ⟨"RUNNING", ""⟩⟩) (fun _ => 0)
    "r" ⟨1, 1⟩ (by decide) (by decide)

/-- C9 counterexample: with `timeoutMs = 0`, `intervalMs = 1`, instantaneous
fetches and statuses that stay `RUNNING`, the poller issues exactly two
fetches before failing with PollTimeoutError — neither zero fetches nor
exactly one. -/
theorem pollFlowRun_zero_timeout_two_fetches_cx :
    pollFlowRunUntilComplete (fun _ _ => .response ⟨true, 200, some ⟨"RUNNING", ""⟩⟩)
        (fun _ => 0) "r" ⟨1, 0⟩ 5
      = some (.error .pollTimeout, ["r", "r"]) ∧
    ((["r", "r"] : List String).length = 2) :=
  ⟨rfl, rfl⟩

/-- C9 (amended): with `timeoutMs = 0` and positive `intervalMs` the deadline
is never checked before a fetch: the first fetch always happens.  On
non-terminal statuses the poller then fails with PollTimeoutError after
exactly one fetch when the first fetch consumed positive time, and after
exactly two fetches when the first fetch was instantaneous. -/
theorem pollFlowRun_zero_timeout_fetch_count
    (fT : String → Nat → Transport RunDetails) (dur : Nat → Nat) (rid : String)
    (i fuel : Nat) (hi : 1 ≤ i) (d0 d1 : RunDetails)
    (h0 : getFlowRunDetails (fT rid 0) = .ok d0)
    (h0d : d0.state ≠ "DONE") (h0f : d0.state ≠ "FAILED") (h0t : d0.state ≠ "TERMINATED")
    (h1 : getFlowRunDetails (fT rid 1) = .ok d1)
    (h1d : d1.state ≠ "DONE") (h1f : d1.state ≠ "FAILED") (h1t : d1.state ≠ "TERMINATED") :
    (0 < dur 0 →
      pollFlowRunUntilComplete fT dur rid ⟨i, 0⟩ (fuel + 1)
        = some (.error .pollTimeout, [rid])) ∧
    (dur 0 = 0 →
      pollFlowRunUntilComplete fT dur rid ⟨i, 0⟩ (fuel + 2)
        = some (.error .pollTimeout, [rid, rid])) := by
  constructor
  · intro hd
    exact @pollAux_timeout_step fT dur rid ⟨i, 0⟩ fuel 0 0 d0 h0 h0d h0f h0t
      (by show (0 : Nat) < 0 + dur 0; omega)
  · intro hd
    have hcont := @pollAux_continue fT dur rid ⟨i, 0⟩ (fuel + 1) 0 0 d0 h0 h0d h0f h0t
      (by show 0 + dur 0 ≤ (0 : Nat); omega)
    have hstep := @pollAux_timeout_step fT dur rid ⟨i, 0⟩ fuel (0 + 1)
      (0 + dur 0 + PollConfig.pollingIntervalMs ⟨i, 0⟩) d1 h1 h1d h1f h1t
      (by show (0 : Nat) < 0 + dur 0 + i + dur 1; omega)
    show pollAux fT dur rid ⟨i, 0⟩ (fuel + 1 + 1) 0 0
      = some (.error .pollTimeout, [rid, rid])
    rw [hcont, hstep]
    rfl

/-- Witness for the amended C9: instantaneous first fetch, so exactly two
fetches happen before the timeout. -/
theorem pollFlowRun_zero_timeout_fetch_count_witness :
    pollFlowRunUntilComplete (fun _ _ => .response ⟨true, 200, some ⟨"RUNNING", ""⟩⟩)
        (fun _ => 0) "r" ⟨1, 0⟩ 3
      = some (.error .pollTimeout, ["r", "r"]) :=
  (pollFlowRun_zero_timeout_fetch_count
    (fun _ _ => .response ⟨true, 200, some ⟨"RUNNING", ""⟩⟩) (fun _ => 0) "r" 1 1
    (by decide) ⟨"RUNNING", ""⟩ ⟨"RUNNING", ""⟩ rfl (by decide) (by decide) (by decide)
    rfl (by decide) (by decide) (by decide)).2 rfl

/-- C5 counterexample: a fetch whose transport succeeded with HTTP success
but whose body is malformed still fails, so failure is not *exactly* on
transport failure or non-success HTTP status. -/
theorem getFlowRunDetails_malformed_body_cx :
    getFlowRunDetails (.response ⟨true, 200, none⟩) = .error .badBody ∧
    (HttpResponse.mk true 200 (none : Option RunDetails)).ok = true :=
  ⟨rfl, rfl⟩

/-- C5 (amended): `getFlowRunDetails` fails exactly when the transport
fails, the HTTP status is non-success, or the response body is malformed;
any such failure in a poll iteration makes the poller fail immediately with
that propagated StatusFetchError, fetching nothing further; concretely, a
transport failure on the second fetch yields StatusFetchError after exactly
two fetches, without a third. -/
theorem statusFetch_characterization_and_immediate_propagation :
    (∀ t : Transport RunDetails,
      (∃ err, getFlowRunDetails t = .error err) ↔
        (t = .netError ∨
          ∃ resp, t = .response resp ∧ (resp.ok = false ∨ resp.body = none))) ∧
    (∀ (fT : String → Nat → Transport RunDetails) (dur : Nat → Nat) (rid : String)
        (cfg : PollConfig) (fuel k e : Nat) (err : FetchError),
      getFlowRunDetails (fT rid k) = .error err →
      pollAux fT dur rid cfg (fuel + 1) k e
        = some (.error (.statusFetch err), [rid])) ∧
    pollFlowRunUntilComplete
        (fun _ k => if k = 0 then .response ⟨true, 200, some ⟨"RUNNING", ""⟩⟩
          else .netError)
        (fun _ => 0) "r" ⟨10, 10000⟩ 20
      = some (.error (.statusFetch .transport), ["r", "r"]) := by
  refine ⟨?_, fun fT dur rid cfg fuel k e err h => pollAux_fetch_error h, by rfl⟩
  intro t
  cases t with
  | netError => simp [getFlowRunDetails]
  | response resp =>
    obtain ⟨ok, status, body⟩ := resp
    cases ok <;> cases body <;> simp [getFlowRunDetails]

/-- Witness for the amended C5: a transport failure on the very first fetch
propagates as StatusFetchError after that single fetch. -/
theorem statusFetch_characterization_and_immediate_propagation_witness :
    pollAux (fun _ _ => (.netError : Transport RunDetails)) (fun _ => 0)
        "r" ⟨10, 100⟩ 1 0 0
      = some (.error (.statusFetch .transport), ["r"]) :=
  statusFetch_characterization_and_immediate_propagation.2.1
    (fun _ _ => .netError) (fun _ => 0) "r" ⟨10, 100⟩ 0 0 0 .transport rfl

/-- C6: `startGumloopFlow` fails with LaunchError exactly when the remote
call cannot be completed — transport failure, non-success HTTP status, or
malformed response body; every orchestration performs exactly one launch
call (no retries); and a launch failure is surfaced immediately by
`startAndWaitForFlow` with no status fetch performed. -/
theorem startGumloopFlow_launch_error_aborts :
    (∀ t : Transport StartPayload,
      (∃ err, startGumloopFlow t = .error err) ↔
        (t = .netError ∨
          ∃ resp, t = .response resp ∧ (resp.ok = false ∨ resp.body = none))) ∧
    (∀ (env : OrchEnv) (cfg : PollConfig) (fuel : Nat)
        (res : Except OrchError OrchestrationResult) (n : Nat) (tr : List String),
      startAndWaitForFlow env cfg fuel = some (res, n, tr) → n = 1) ∧
    (∀ (env : OrchEnv) (cfg : PollConfig) (fuel : Nat) (err : FetchError),
      startGumloopFlow env.launchTransport = .error err →
      startAndWaitForFlow env cfg fuel = some (.error (.launchError err), 1, [])) := by
  refine ⟨?_, ?_, ?_⟩
  · intro t
    cases t with
    | netError => simp [startGumloopFlow]
    | response resp =>
      obtain ⟨ok, status, body⟩ := resp
      cases ok <;> cases body <;> simp [startGumloopFlow]
  · intro env cfg fuel res n tr h
    simp only [startAndWaitForFlow] at h
    split at h
    · obtain ⟨-, h2, -⟩ := by simpa using h
      omega
    · split at h
      · simp at h
      · split at h
        · obtain ⟨-, h2, -⟩ := by simpa using h
          omega
        · obtain ⟨-, h2, -⟩ := by simpa using h
          omega
  · intro env cfg fuel err h
    simp [startAndWaitForFlow, h]

/-- Witness for C6: a network failure on the launch POST aborts the
orchestration before any status fetch. -/
theorem startGumloopFlow_launch_error_aborts_witness :
    startAndWaitForFlow
        ⟨.netError, fun _ _ => .response ⟨true, 200, some ⟨"DONE", ""⟩⟩, fun _ => 0⟩
        ⟨10, 100⟩ 5
      = some (.error (.launchError .transport), 1, []) :=
  startGumloopFlow_launch_error_aborts.2.2
    ⟨.netError, fun _ _ => .response ⟨true, 200, some ⟨"DONE", ""⟩⟩, fun _ => 0⟩
    ⟨10, 100⟩ 5 .transport rfl

/-- C7: each orchestration call creates exactly one run handle — the single
`startGumloopFlow` call — and every status fetch performed by the poller in
that call uses the `run_id` taken from that launch response: the fetch trace
is a constant list of `flowStart.run_id`, which is also
`startDetails.run_id` of a successful orchestration result. -/
theorem startAndWait_single_handle_consistent_runid
    (env : OrchEnv) (cfg : PollConfig) (fuel : Nat)
    (res : Except OrchError OrchestrationResult) (n : Nat) (tr : List String)
    (h : startAndWaitForFlow env cfg fuel = some (res, n, tr)) :
    n = 1 ∧
    (∀ flowStart, startGumloopFlow env.launchTransport = .ok flowStart →
      tr = List.replicate tr.length flowStart.run_id) ∧
    (∀ result, res = .ok result →
      tr = List.replicate tr.length result.startDetails.run_id) := by
  simp only [startAndWaitForFlow] at h
  split at h
  case _ err heq =>
    obtain ⟨h1, h2, h3⟩ := by simpa using h
    refine ⟨by omega, ?_, ?_⟩
    · intro fs hfs
      rw [heq] at hfs
      cases hfs
    · intro result hr
      rw [← h1] at hr
      cases hr
  case _ fs heq =>
    split at h
    case _ hp => simp at h
    case _ p hp =>
      have hrepl :=
        (pollAux_sound env.fetchTransport env.fetchDuration fs.run_id cfg fuel 0 0
          p.1 p.2 hp).2.1
      split at h
      case _ perr heq2 =>
        obtain ⟨h1, h2, h3⟩ := by simpa using h
        refine ⟨by omega, ?_, ?_⟩
        · intro fs' hfs'
          rw [heq] at hfs'
          injection hfs' with hfs''
          rw [← hfs'', ← h3]
          exact hrepl
        · intro result hr
          rw [← h1] at hr
          cases hr
      case _ fin heq2 =>
        obtain ⟨h1, h2, h3⟩ := by simpa using h
        refine ⟨by omega, ?_, ?_⟩
        · intro fs' hfs'
          rw [heq] at hfs'
          injection hfs' with hfs''
          rw [← hfs'', ← h3]
          exact hrepl
        · intro result hr
          rw [← h1] at hr
          injection hr with hr'
          rw [← hr', ← h3]
          exact hrepl

/-- Witness for C7 at a concrete successful orchestration: one launch, one
fetch, all fetches carrying the launched `run_id`. -/
theorem startAndWait_single_handle_consistent_runid_witness :
    ["rid42"] = List.replicate (["rid42"] : List String).length
      (OrchestrationResult.startDetails ⟨⟨"rid42", ""⟩, ⟨"DONE", ""⟩⟩).run_id := by
  have h := startAndWait_single_handle_consistent_runid
    ⟨.response ⟨true, 200, some ⟨"rid42", ""⟩⟩,
      fun _ _ => .response ⟨true, 200, some ⟨"DONE", ""⟩⟩, fun _ => 0⟩
    ⟨10, 100⟩ 2 (.ok ⟨⟨"rid42", ""⟩, ⟨"DONE", ""⟩⟩) 1 ["rid42"] rfl
  exact h.2.2 ⟨⟨"rid42", ""⟩, ⟨"DONE", ""⟩⟩ rfl
